import Mathlib

/-!
Shallow embedding of the `ssam-ew` repository (files `ssam_ew.py` and
`magma.py`) and proofs about its data-normalization and rendering pipeline.

Modelling conventions:
* A parsed line of an SSAM `.dat` file is a pair `(t, vals)` where `t : Nat`
  is the timestamp in minutes (the source parses `'%d-%b-%Y %H:%M'`, a
  minute-resolution timestamp) and `vals : List (Option ℚ)` are the amplitude
  cells, `none` standing for a missing value (NaN).
* Calendar dates are day numbers (`Nat`); `strftime('%Y-%m-%d')` applied to a
  timestamp is `t / 1440` (minutes per day).
* A pandas DataFrame on the Magma side is column-major: an index plus a list
  of named columns, each column carrying its cell values.
* Exceptions are modelled with `Except`; raising aborts construction, so an
  `Except.error` result means no table was built and no CSV was exported.
-/

/-- A cell value of the Magma table: a string, an integer count, or NaN. -/
inductive Val where
  | vstr (s : String)
  | vint (n : Int)
  | vnan
deriving DecidableEq, Repr

/-- One parsed SSAM line: minute timestamp and amplitude cells. -/
abbrev SsamRow := Nat × List (Option ℚ)

/-- `df.dropna()` keeps a row iff every cell is present (`ssam_ew.py` line 79). -/
def row_complete (r : SsamRow) : Bool := r.2.all Option.isSome

/-- Row comparison used by `sort_values(by=['datetime'])` (`ssam_ew.py` line 80):
rows are ordered by their timestamp index. -/
def row_le (a b : SsamRow) : Prop := a.1 ≤ b.1

instance : DecidableRel row_le := fun a b => Nat.decLe a.1 b.1

instance : IsTotal SsamRow row_le := ⟨fun a b => Nat.le_total a.1 b.1⟩

instance : IsTrans SsamRow row_le := ⟨fun _ _ _ => Nat.le_trans⟩

/-- `df.drop_duplicates(keep='last')` (`ssam_ew.py` line 81).  pandas ignores
the index here: a row is a duplicate of another exactly when all its COLUMN
values (not its timestamp) coincide, and the last occurrence is kept. -/
def drop_duplicates_keep_last : List SsamRow → List SsamRow
  | [] => []
  | r :: rs =>
      if ∃ s ∈ rs, s.2 = r.2 then drop_duplicates_keep_last rs
      else r :: drop_duplicates_keep_last rs

/-- `SsamEW.get_df` (`ssam_ew.py` lines 72-83): concatenate the per-file rows,
build the timestamp index (already part of `SsamRow` in this embedding), drop
rows with a missing value, sort by the timestamp index (a stable sort), and
apply `drop_duplicates(keep='last')`. -/
def ssam_get_df (files : List (List SsamRow)) : List SsamRow :=
  drop_duplicates_keep_last
    (List.insertionSort row_le ((files.flatten).filter row_complete))

theorem drop_duplicates_keep_last_sublist (l : List SsamRow) :
    List.Sublist (drop_duplicates_keep_last l) l := by
  induction l with
  | nil => simp [drop_duplicates_keep_last]
  | cons r rs ih =>
      by_cases h : ∃ s ∈ rs, s.2 = r.2
      · simpa [drop_duplicates_keep_last, h] using ih.cons r
      · simpa [drop_duplicates_keep_last, h] using ih.cons₂ r

theorem drop_duplicates_keep_last_pairwise (l : List SsamRow) :
    (drop_duplicates_keep_last l).Pairwise (fun a b => a.2 ≠ b.2) := by
  induction l with
  | nil => simp [drop_duplicates_keep_last]
  | cons r rs ih =>
      by_cases h : ∃ s ∈ rs, s.2 = r.2
      · simpa [drop_duplicates_keep_last, h] using ih
      · rw [drop_duplicates_keep_last, if_neg h]
        refine List.Pairwise.cons ?_ ih
        intro b hb heq
        exact h ⟨b, (drop_duplicates_keep_last_sublist rs).mem hb, heq.symm⟩

theorem drop_duplicates_keep_last_vals_complete (l : List SsamRow) :
    ∀ r ∈ l, ∃ r' ∈ drop_duplicates_keep_last l, r'.2 = r.2 := by
  induction l with
  | nil => simp
  | cons r rs ih =>
      intro x hx
      by_cases h : ∃ s ∈ rs, s.2 = r.2
      · rw [drop_duplicates_keep_last, if_pos h]
        rcases List.mem_cons.mp hx with hx | hx
        · rcases h with ⟨s, hs, hs2⟩
          rcases ih s hs with ⟨r', hr', he⟩
          exact ⟨r', hr', by rw [he, hs2, hx]⟩
        · exact ih x hx
      · rw [drop_duplicates_keep_last, if_neg h]
        rcases List.mem_cons.mp hx with hx | hx
        · exact ⟨r, List.mem_cons_self r _, by rw [hx]⟩
        · rcases ih x hx with ⟨r', hr', he⟩
          exact ⟨r', List.mem_cons_of_mem r hr', he⟩

theorem ssam_get_df_sorted (files : List (List SsamRow)) :
    (ssam_get_df files).Sorted row_le := by
  have hs : (List.insertionSort row_le ((files.flatten).filter row_complete)).Sorted row_le :=
    List.sorted_insertionSort row_le _
  exact hs.sublist (drop_duplicates_keep_last_sublist _)

theorem ssam_get_df_mem (files : List (List SsamRow)) :
    ∀ r ∈ ssam_get_df files, r ∈ files.flatten ∧ row_complete r := by
  intro r hr
  have h1 : r ∈ List.insertionSort row_le ((files.flatten).filter row_complete) :=
    (drop_duplicates_keep_last_sublist _).mem hr
  have h2 : r ∈ (files.flatten).filter row_complete :=
    (List.perm_insertionSort row_le _).mem_iff.mp h1
  exact ⟨List.mem_of_mem_filter h2, List.of_mem_filter h2⟩

/-- C1: the claim asserts at most one row per timestamp after construction,
with ties resolved to the later-sorted occurrence.  Refutation at a concrete
archive: one file with two lines sharing timestamp `0` but different
amplitude values.  `drop_duplicates(keep='last')` compares only the column
values (pandas ignores the index), so both rows survive and the output table
has two rows with the same timestamp. -/
theorem c1_spectral_dedup_counterexample :
    ssam_get_df [[(0, [some (1:ℚ)]), (0, [some (2:ℚ)])]]
      = [(0, [some 1]), (0, [some 2])]
    ∧ ¬ (ssam_get_df [[(0, [some (1:ℚ)]), (0, [some (2:ℚ)])]]).Pairwise
        (fun a b => a.1 ≠ b.1) := by
  constructor
  · decide
  · decide

/-- C1 (amended): deduplication of the Spectral Table keys on the full
amplitude-value vector, not on the timestamp.  For every constructed table:
no two retained rows carry an identical amplitude vector (a row is dropped
precisely in favour of a later-sorted row with the same values, timestamps
ignored, so rows sharing a timestamp but differing in values are all
retained); every amplitude vector of a complete input line survives in some
retained row; and the rows are sorted non-decreasingly by timestamp. -/
theorem c1_spectral_dedup (files : List (List SsamRow)) :
    (ssam_get_df files).Pairwise (fun a b => a.2 ≠ b.2)
    ∧ (ssam_get_df files).Sorted row_le
    ∧ ∀ r ∈ (files.flatten).filter row_complete,
        ∃ r' ∈ ssam_get_df files, r'.2 = r.2 := by
  refine ⟨drop_duplicates_keep_last_pairwise _, ssam_get_df_sorted files, ?_⟩
  intro r hr
  have h1 : r ∈ List.insertionSort row_le ((files.flatten).filter row_complete) :=
    (List.perm_insertionSort row_le _).mem_iff.mpr hr
  exact drop_duplicates_keep_last_vals_complete _ r h1

/-- C1 witness: the amended dedup property evaluated at a concrete archive. -/
theorem c1_spectral_dedup_witness :
    (ssam_get_df [[(42, [some (3:ℚ)])]]).Pairwise (fun a b => a.2 ≠ b.2)
    ∧ ∃ r' ∈ ssam_get_df [[(42, [some (3:ℚ)])]],
        r'.2 = ((42, [some (3:ℚ)]) : SsamRow).2 :=
  ⟨(c1_spectral_dedup [[(42, [some 3])]]).1,
   (c1_spectral_dedup [[(42, [some 3])]]).2.2 (42, [some 3]) (by decide)⟩

/-- Linear time interpolation of one missing cell: `(t0, v0)` is the last
valid observation before the gap and `next` the next valid one, if any
(pandas `interpolate('time')`: interior gaps are time-weighted linear,
trailing gaps repeat the last valid value). -/
def fill_gap (t0 : Nat) (v0 : ℚ) (next : Option (Nat × ℚ)) (t : Nat) : ℚ :=
  match next with
  | none => v0
  | some (t1, v1) => v0 + (v1 - v0) * (((t : ℚ) - (t0 : ℚ)) / ((t1 : ℚ) - (t0 : ℚ)))

def find_next_valid : List (Nat × Option ℚ) → Option (Nat × ℚ)
  | [] => none
  | (t, some v) :: _ => some (t, v)
  | (_, none) :: rest => find_next_valid rest

/-- One column of `df.interpolate('time')` (`ssam_ew.py` line 108): cells
before the first valid value stay missing (forward fill direction), interior
gaps are filled by time-weighted linear interpolation, trailing gaps repeat
the last valid value. -/
def interp_col (last : Option (Nat × ℚ)) : List (Nat × Option ℚ) → List (Option ℚ)
  | [] => []
  | (t, some v) :: rest => some v :: interp_col (some (t, v)) rest
  | (t, none) :: rest =>
      match last with
      | none => none :: interp_col none rest
      | some (t0, v0) =>
          some (fill_gap t0 v0 (find_next_valid rest) t) :: interp_col (some (t0, v0)) rest

/-- Reassemble rows from interpolated columns: the `j`-th value of the `i`-th
output row is the `i`-th entry of interpolated column `j`. -/
def attach_cols : List SsamRow → List (List (Option ℚ)) → List SsamRow
  | [], _ => []
  | r :: rs, cs =>
      (r.1, cs.map (fun c => c.headD none)) :: attach_cols rs (cs.map List.tail)

/-- `df.interpolate('time')` on the whole table: each column is interpolated
independently over the timestamp index. -/
def interpolate_time (rows : List SsamRow) : List SsamRow :=
  let n := match rows with | [] => 0 | r :: _ => r.2.length
  attach_cols rows
    ((List.range n).map fun j => interp_col none (rows.map fun r => (r.1, r.2.getD j none)))

/-- The state built by `SsamEW.__init__` that the claims depend on: the
merged table and the resolved start/end dates (as day numbers). -/
structure SsamState where
  df : List SsamRow
  start_date : Nat
  end_date : Nat
deriving DecidableEq, Repr

/-- `strftime('%Y-%m-%d')` of a minute timestamp: its day number. -/
def to_day (t : Nat) : Nat := t / 1440

def resolve_date (given : Option Nat) (fallback : Option SsamRow) : Option Nat :=
  match given with
  | some d => some d
  | none => fallback.map (fun r => to_day r.1)

/-- `SsamEW.__init__` (`ssam_ew.py` lines 15-54): build the table with
`get_df`; a missing start (end) date is resolved to the date of the first
(last) timestamp of the table (`df.index[0]` / `df.index[-1]`); indexing an
empty table fails, modelled as `none`. -/
def ssam_construct (files : List (List SsamRow)) (startO endO : Option Nat) :
    Option SsamState :=
  match resolve_date startO (ssam_get_df files).head?,
        resolve_date endO (ssam_get_df files).getLast? with
  | some s, some e => some ⟨ssam_get_df files, s, e⟩
  | _, _ => none

/-- `SsamEW.plot_ax` (`ssam_ew.py` lines 85-101): the values handed to
`contourf` come from the `df` argument, defaulting to the raw `self.df`
when no argument is passed. -/
def plot_ax_values (dfArg : Option (List SsamRow)) (selfDf : List SsamRow) :
    List SsamRow :=
  dfArg.getD selfDf

/-- Values drawn by `SsamEW.plot` (`ssam_ew.py` lines 103-128): `plot` passes
`self.df.interpolate('time')` to `plot_ax`. -/
def plot_drawn_values (s : SsamState) : List SsamRow :=
  plot_ax_values (some (interpolate_time s.df)) s.df

/-- Values drawn in the heatmap panel of `SsamEW.plot_with_magma`
(`ssam_ew.py` line 165): `plot_ax` is called without a `df` argument, so it
falls back to `self.df`. -/
def plot_with_magma_drawn_values (s : SsamState) : List SsamRow :=
  plot_ax_values none s.df

theorem interp_col_all_some (l : List (Nat × Option ℚ))
    (h : ∀ x ∈ l, (x.2).isSome) :
    ∀ last, interp_col last l = l.map (fun x => x.2) := by
  induction l with
  | nil => intro last; rfl
  | cons x rest ih =>
      intro last
      obtain ⟨t, o⟩ := x
      match o, h _ (List.mem_cons_self _ _) with
      | some v, _ =>
          simp only [interp_col, List.map_cons]
          exact congrArg _ (ih (fun y hy => h y (List.mem_cons_of_mem _ hy)) _)

theorem map_getD_range {α : Type} (l : List α) (d : α) :
    (List.range l.length).map (fun j => l.getD j d) = l := by
  induction l with
  | nil => rfl
  | cons a l ih =>
      rw [List.length_cons, List.range_succ_eq_map, List.map_cons, List.map_map]
      simp only [List.getD_cons_zero, Function.comp_def, List.getD_cons_succ]
      rw [ih]

theorem attach_cols_self (n : Nat) (rows : List SsamRow)
    (hlen : ∀ r ∈ rows, r.2.length = n) :
    attach_cols rows
      ((List.range n).map fun j => rows.map (fun r => r.2.getD j none)) = rows := by
  induction rows with
  | nil => rfl
  | cons r rs ih =>
      have h1 : ((List.range n).map fun j =>
          (r :: rs).map (fun r => r.2.getD j none)).map (fun c => c.headD none)
          = (List.range n).map (fun j => r.2.getD j none) := by
        rw [List.map_map]; rfl
      have h2 : ((List.range n).map fun j =>
          (r :: rs).map (fun r => r.2.getD j none)).map List.tail
          = (List.range n).map fun j => rs.map (fun r => r.2.getD j none) := by
        rw [List.map_map]; rfl
      have h3 : (List.range n).map (fun j => r.2.getD j none) = r.2 := by
        have hn : n = r.2.length := (hlen r (List.mem_cons_self _ _)).symm
        subst hn
        exact map_getD_range r.2 none
      rw [attach_cols, h1, h2, h3, ih (fun x hx => hlen x (List.mem_cons_of_mem _ hx))]

theorem interpolate_time_of_complete (rows : List SsamRow) (n : Nat)
    (hlen : ∀ r ∈ rows, r.2.length = n)
    (hsome : ∀ r ∈ rows, ∀ v ∈ r.2, v.isSome) :
    interpolate_time rows = rows := by
  match rows with
  | [] => rfl
  | r0 :: rs =>
      have hn : r0.2.length = n := hlen r0 (List.mem_cons_self _ _)
      show attach_cols (r0 :: rs)
          ((List.range r0.2.length).map fun j =>
            interp_col none ((r0 :: rs).map fun r => (r.1, r.2.getD j none)))
          = r0 :: rs
      rw [hn]
      have hcols : ∀ j ∈ List.range n,
          interp_col none ((r0 :: rs).map fun r => (r.1, r.2.getD j none))
            = (r0 :: rs).map (fun r => r.2.getD j none) := by
        intro j hj
        have hj' : j < n := List.mem_range.mp hj
        rw [interp_col_all_some]
        · rw [List.map_map]; rfl
        · intro x hx
          rcases List.mem_map.mp hx with ⟨r, hr, hrx⟩
          have hlt : j < r.2.length := by rw [hlen r hr]; exact hj'
          have hg : r.2.getD j none = r.2[j] := List.getD_eq_getElem _ _ hlt
          rw [← hrx]
          simp only [hg]
          exact hsome r hr _ (List.getElem_mem hlt)
      rw [List.map_eq_map_iff.mpr hcols]
      exact attach_cols_self n (r0 :: rs) hlen

/-- C2: every rendering of a constructed Spectral Table draws the values of
the time-interpolated table.  `plot` passes `self.df.interpolate('time')` to
`plot_ax` explicitly; the combined mode (`plot_with_magma`) passes the raw
`self.df`, but construction (`get_df`) has already dropped every row with a
missing value, so time interpolation is the identity on the constructed
table and the drawn values coincide with the interpolated ones.  The width
hypothesis says all parsed lines have the same number of amplitude cells. -/
theorem c2_render_interpolated (files : List (List SsamRow)) (n : Nat)
    (startO endO : Option Nat) (s : SsamState)
    (hlen : ∀ r ∈ files.flatten, r.2.length = n)
    (hs : ssam_construct files startO endO = some s) :
    plot_drawn_values s = interpolate_time s.df
    ∧ plot_with_magma_drawn_values s = interpolate_time s.df := by
  have hdf : s.df = ssam_get_df files := by
    unfold ssam_construct at hs
    rcases h1 : resolve_date startO (ssam_get_df files).head? with _ | d1 <;>
      rcases h2 : resolve_date endO (ssam_get_df files).getLast? with _ | d2 <;>
      rw [h1, h2] at hs <;> simp_all
    rw [← hs]
  refine ⟨rfl, ?_⟩
  have hid : interpolate_time s.df = s.df := by
    apply interpolate_time_of_complete s.df n
    · intro r hr
      rw [hdf] at hr
      exact hlen r ((ssam_get_df_mem files r hr).1)
    · intro r hr v hv
      rw [hdf] at hr
      have hc : row_complete r := (ssam_get_df_mem files r hr).2
      exact List.all_eq_true.mp hc v hv
  rw [hid]
  rfl

/-- C2 witness: both render paths evaluated on a concrete archive. -/
theorem c2_render_interpolated_witness :
    plot_drawn_values ⟨[(0, [some 1]), (2, [some 3])], 0, 0⟩
      = interpolate_time (SsamState.df ⟨[(0, [some 1]), (2, [some 3])], 0, 0⟩)
    ∧ plot_with_magma_drawn_values ⟨[(0, [some 1]), (2, [some 3])], 0, 0⟩
      = interpolate_time (SsamState.df ⟨[(0, [some 1]), (2, [some 3])], 0, 0⟩) :=
  c2_render_interpolated [[(0, [some 1]), (2, [some 3])]] 1 none none
    ⟨[(0, [some 1]), (2, [some 3])], 0, 0⟩ (by decide) (by decide)

/-- The Color Catalog `Magma.colors` (`magma.py` lines 15-35), in source
order. -/
def colors : List (String × String) := [
  ("Letusan/Erupsi", "#F44336"),
  ("Awan Panas Letusan", "#e91e63"),
  ("Guguran", "#1976d2"),
  ("Awan Panas Guguran", "#673ab7"),
  ("Hembusan", "#3f51b5"),
  ("Tremor Non-Harmonik", "#0d47a1"),
  ("Tornillo", "#03a9f4"),
  ("Low Frequency", "#006064"),
  ("Hybrid/Fase Banyak", "#009688"),
  ("Vulkanik Dangkal", "#8BC34A"),
  ("Vulkanik Dalam", "#33691E"),
  ("Very Long Period", "#827717"),
  ("Tektonik Lokal", "#F57F17"),
  ("Terasa", "#FFCA28"),
  ("Tektonik Jauh", "#FFA726"),
  ("Double Event", "#ff5722"),
  ("Getaran Banjir", "#795548"),
  ("Harmonik", "#607d8b"),
  ("Tremor Menerus", "#9E9E9E")]

/-- The local colour dict of the static `Magma.plot_from_df`
(`magma.py` lines 210-230). -/
def plot_from_df_colors : List (String × String) := [
  ("Letusan/Erupsi", "#F44336"),
  ("Awan Panas Letusan", "#e91e63"),
  ("Guguran", "#1976d2"),
  ("Awan Panas Guguran", "#673ab7"),
  ("Hembusan", "#3f51b5"),
  ("Tremor Non-Harmonik", "#0d47a1"),
  ("Tornillo", "#03a9f4"),
  ("Low Frequency", "#006064"),
  ("Hybrid/Fase Banyak", "#009688"),
  ("Vulkanik Dangkal", "#8BC34A"),
  ("Vulkanik Dalam", "#33691E"),
  ("Very Long Period", "#827717"),
  ("Tektonik Lokal", "#F57F17"),
  ("Terasa", "#FFCA28"),
  ("Tektonik Jauh", "#FFA726"),
  ("Double Event", "#ff5722"),
  ("Getaran Banjir", "#795548"),
  ("Harmonik", "#607d8b"),
  ("Tremor Menerus", "#9E9E9E")]

/-- The allowed `earthquake_events` codes (`magma.py` lines 150-152). -/
def allowed_earthquake_events : List String :=
  ["*", "lts", "apl", "apg", "gug", "hbs", "hrm", "tre",
   "tor", "lof", "hyb", "vtb", "vta", "vlp", "tel", "trs",
   "tej", "dev", "gtb", "dpt", "mtr"]

/-- The rename catalog of `Magma.get_df` (`magma.py` lines 86-107). -/
def rename_catalog : List (String × String) := [
  ("gempa.letusan_erupsi", "Letusan/Erupsi"),
  ("gempa.awan_panas_letusan", "Awan Panas Letusan"),
  ("gempa.awan_panas_guguran", "Awan Panas Guguran"),
  ("gempa.guguran", "Guguran"),
  ("gempa.hembusan", "Hembusan"),
  ("gempa.harmonik", "Harmonik"),
  ("gempa.tremor_non_harmonik", "Tremor-Non Harmonik"),
  ("gempa.tornillo", "Tornillo"),
  ("gempa.low_frequency", "Low Frequency"),
  ("gempa.hybrid_fase_banyak", "Hybrid/Fase Banyak"),
  ("gempa.vulkanik_dangkal", "Vulkanik Dangkal"),
  ("gempa.vulkanik_dalam", "Vulkanik Dalam"),
  ("gempa.very_long_period", "Very Long Period"),
  ("gempa.tektonik_lokal", "Tektonik Lokal"),
  ("gempa.terasa", "Terasa"),
  ("gempa.tektonik_jauh", "Tektonik Jauh"),
  ("gempa.double_event", "Double Event"),
  ("gempa.getaran_banjir", "Getaran Banjir"),
  ("gempa.deep_tremor", "Deep Tremor"),
  ("gempa.tremor_menerus", "Tremor Menerus")]

/-- The 16 metadata columns dropped unconditionally by `Magma.get_df`
(`magma.py` lines 63-80). -/
def metadata_columns : List String :=
  ["availability", "visual.visibility", "visual.cuaca",
   "visual.asap.teramati", "visual.asap.warna", "visual.asap.intensitas",
   "visual.asap.tekanan", "visual.asap.tinggi_min", "visual.asap.tinggi_max",
   "visual.letusan.teramati", "visual.letusan.tinggi_min",
   "visual.letusan.tinggi_max", "visual.letusan.warna",
   "visual.awan_panas_guguran.teramati", "visual.awan_panas_guguran.jarak_min",
   "visual.awan_panas_guguran.jarak_max"]

/-- The exceptions the Magma pipeline can raise.  `valueErr` and
`invalidEvents` model Python `ValueError` (the spec's InvalidArgument), the
latter carrying the allowed set its message enumerates; `keyError` models
`KeyError` (a `LookupError`); `emptyData` models
`pandas.errors.EmptyDataError`, carrying the warning printed just before the
raise (`magma.py` lines 55-56); `typeErr` models the `TypeError` raised when
a scalar Axes object is indexed. -/
inductive MagmaError where
  | valueErr (msg : String)
  | invalidEvents (allowed : List String)
  | keyError (missing : List String)
  | emptyData (warning : String)
  | typeErr (msg : String)
deriving DecidableEq, Repr

/-- Which errors are Python `ValueError`s (the spec's InvalidArgument). -/
def MagmaError.is_invalid_argument : MagmaError → Bool
  | valueErr _ => true
  | invalidEvents _ => true
  | _ => false

/-- Which errors are Python `LookupError`s (`KeyError`). -/
def MagmaError.is_lookup_error : MagmaError → Bool
  | keyError _ => true
  | _ => false

/-- A pandas DataFrame, column-major: the index labels and the named columns
with their cell values. -/
structure DF where
  index : List Val
  cols : List (String × List Val)
deriving DecidableEq, Repr

/-- Keys in order of first appearance (column order of `json_normalize`). -/
def uniqueKeys (l : List String) : List String :=
  l.foldl (fun acc k => if acc.contains k then acc else acc ++ [k]) []

/-- `pd.json_normalize(json['data'])` (`magma.py` line 62): one column per
flattened key, in order of first appearance across the records; a record
lacking a key yields NaN; the index is the default 0-based range index.
With no records at all the frame has no columns. -/
def json_normalize (data : List (List (String × Val))) : DF :=
  { index := (List.range data.length).map (fun i => Val.vint (i : Int))
    cols := (uniqueKeys ((data.map (fun row => row.map Prod.fst)).flatten)).map
      (fun k => (k, data.map (fun row => (row.lookup k).getD Val.vnan))) }

/-- `df.drop(columns=[...], inplace=True)` (`magma.py` lines 63-80): raises
`KeyError` if any label is absent from the frame, otherwise removes the
columns. -/
def drop_columns_strict (labels : List String) (df : DF) : Except MagmaError DF :=
  if (labels.filter (fun l => !((df.cols.map Prod.fst).contains l))).isEmpty then
    .ok { df with cols := df.cols.filter (fun c => !(labels.contains c.1)) }
  else .error (.keyError (labels.filter (fun l => !((df.cols.map Prod.fst).contains l))))

def add_val : Val → Val → Val
  | .vint a, .vint b => .vint (a + b)
  | .vstr a, .vstr b => .vstr (a ++ b)
  | _, _ => .vnan

/-- A pandas column sum with the default `skipna=True`: NaN cells are
ignored, an all-NaN or empty column sums to 0, numeric cells add, object
(string) cells concatenate. -/
def sum_vals (l : List Val) : Val :=
  match l.filter (fun v => !(v == Val.vnan)) with
  | [] => .vint 0
  | v :: rest => rest.foldl add_val v

/-- `df.drop(columns=df.columns[df.sum() == 0], inplace=True)`
(`magma.py` line 82). -/
def drop_zero_sum_columns (df : DF) : DF :=
  { df with cols := df.cols.filter (fun c => !(sum_vals c.2 == Val.vint 0)) }

/-- `df.set_index(keys='date')` followed by `pd.to_datetime` on the index
(`magma.py` lines 83-84): the date column becomes the index (datetime
parsing is the identity on our abstract cell values); raises `KeyError` when
the column is absent. -/
def set_index_date (df : DF) : Except MagmaError DF :=
  match df.cols.find? (fun c => c.1 == "date") with
  | some c => .ok { index := c.2, cols := df.cols.filter (fun c => !(c.1 == "date")) }
  | none => .error (.keyError ["date"])

/-- `df.rename(columns={...}, inplace=True)` (`magma.py` lines 86-107). -/
def rename_columns (df : DF) : DF :=
  { df with cols := df.cols.map (fun c => ((rename_catalog.lookup c.1).getD c.1, c.2)) }

/-- `Magma.get_df` (`magma.py` lines 58-109): flatten the response records,
drop the fixed metadata columns (strict), drop zero-sum columns, move the
date column to the index, rename the survivors through the catalog. -/
def magma_get_df (data : List (List (String × Val))) : Except MagmaError DF := do
  let df ← drop_columns_strict metadata_columns (json_normalize data)
  let df ← set_index_date (drop_zero_sum_columns df)
  return rename_columns df

/-- The normalization step of `Magma.validate_earthquake_events`
(`magma.py` lines 143-147): `None` defaults to `['*']` and a single string
becomes a singleton list. -/
def events_list (ev : Option (String ⊕ List String)) : List String :=
  match ev with
  | none => ["*"]
  | some (.inl s) => [s]
  | some (.inr l) => l

/-- `Magma.validate_earthquake_events` (`magma.py` lines 142-157): any code
outside the allowed set raises a `ValueError` whose message names the full
allowed set (modelled by the error carrying that set). -/
def magma_validate_earthquake_events (ev : Option (String ⊕ List String)) :
    Except MagmaError (List String) :=
  if (events_list ev).all (fun e => allowed_earthquake_events.contains e) then
    .ok (events_list ev)
  else .error (.invalidEvents allowed_earthquake_events)

/-- The date validation of `Magma.get_json_response` (`magma.py` lines
126-133), with calendar dates as day numbers: `start > end` raises
`ValueError`, and so does a start or end date strictly after today (the
source compares midnight of the parsed date with `datetime.now()`, which is
a strict day-level comparison). -/
def validate_dates (start_date end_date today : Nat) : Except MagmaError Unit :=
  if start_date > end_date then
    .error (.valueErr ("End date (" ++ toString end_date
      ++ ") must be greater than start date (" ++ toString start_date ++ ")"))
  else if end_date > today ∨ start_date > today then
    .error (.valueErr ("End date or start date must be greter than today ("
      ++ toString today ++ ")"))
  else .ok ()

/-- The attributes `Magma.__init__` leaves behind on success. -/
structure MagmaResult where
  df : DF
  events_not_recorded : List String
  csv_filename : String
deriving DecidableEq, Repr

/-- `Magma.__init__` (`magma.py` lines 37-56): validate the event filter,
validate the dates (inside `get_json_response`; the network exchange itself
is abstracted by the `data` parameter holding the response's `data` field),
normalize with `get_df`, record `events_not_recorded` as the columns of the
normalized table with zero sum, then export the CSV when the table is
non-empty (`df.empty` is true when either axis has length 0) and otherwise
print a warning and raise `EmptyDataError`.  An `Except.error` result means
no table was kept and no CSV was written. -/
def magma_construct (volcano_code : String) (start_date end_date today : Nat)
    (ev : Option (String ⊕ List String)) (data : List (List (String × Val))) :
    Except MagmaError MagmaResult := do
  let _ ← magma_validate_earthquake_events ev
  let _ ← validate_dates start_date end_date today
  let df ← magma_get_df data
  let not_recorded := (df.cols.filter (fun c => sum_vals c.2 == Val.vint 0)).map Prod.fst
  if df.index.isEmpty ∨ df.cols.isEmpty then
    .error (.emptyData ("There is no event(s) between " ++ toString start_date
      ++ " and " ++ toString end_date ++ ". Please change your parameters."))
  else
    return { df := df, events_not_recorded := not_recorded,
             csv_filename := "magma_" ++ volcano_code ++ "_" ++ toString start_date
               ++ "_" ++ toString end_date ++ ".csv" }

/-- C4: the claim counts the allowed event-filter set at 20 total elements
including the wildcard; the set enumerated by the source (and echoed in its
error message) has 21 distinct elements including the wildcard. -/
theorem c4_event_filter_counterexample :
    allowed_earthquake_events.Nodup
    ∧ allowed_earthquake_events.length = 21
    ∧ allowed_earthquake_events.length ≠ 20 := by
  refine ⟨by decide, by decide, by decide⟩

/-- C4 (amended): the event filter must be the wildcard or one of the fixed
enumerated set of short codes — 21 total elements including the wildcard.
An absent filter behaves exactly like the wildcard singleton, a single
string like its singleton list, and any element outside the set makes
construction fail with the `ValueError` that names the full allowed set. -/
theorem c4_event_filter :
    (∀ vc s e t data, magma_construct vc s e t none data
        = magma_construct vc s e t (some (Sum.inr ["*"])) data)
    ∧ (∀ vc s e t str data, magma_construct vc s e t (some (Sum.inl str)) data
        = magma_construct vc s e t (some (Sum.inr [str])) data)
    ∧ (∀ vc s e t l data, (∃ x ∈ l, x ∉ allowed_earthquake_events) →
        magma_construct vc s e t (some (Sum.inr l)) data
          = Except.error (MagmaError.invalidEvents allowed_earthquake_events))
    ∧ "*" ∈ allowed_earthquake_events
    ∧ allowed_earthquake_events.length = 21 := by
  refine ⟨fun vc s e t data => rfl, fun vc s e t str data => rfl, ?_, by decide, by decide⟩
  intro vc s e t l data h
  have hv : magma_validate_earthquake_events (some (Sum.inr l))
      = Except.error (MagmaError.invalidEvents allowed_earthquake_events) := by
    unfold magma_validate_earthquake_events
    rw [if_neg]
    intro hall
    rcases h with ⟨x, hx, hnx⟩
    have hc := List.all_eq_true.mp hall x hx
    exact hnx (List.elem_iff.mp hc)
  unfold magma_construct
  rw [hv]
  rfl

/-- C4 witness: a concrete invalid code fails with the error naming the
allowed set. -/
theorem c4_event_filter_witness :
    magma_construct "XYZ" 0 0 0 (some (Sum.inr ["zzz"])) []
      = Except.error (MagmaError.invalidEvents allowed_earthquake_events) :=
  c4_event_filter.2.2.1 "XYZ" 0 0 0 ["zzz"] [] ⟨"zzz", by decide, by decide⟩

/-- C5: whenever the start date is after the end date, or either date is
strictly in the future relative to today, construction fails with a
`ValueError` (the spec's InvalidArgument) — no table is built and no CSV
exported (an `Except.error` result of `magma_construct` precedes both the
normalization and the export in the modelled `__init__` order). -/
theorem c5_date_validation (vc : String) (s e t : Nat)
    (ev : Option (String ⊕ List String)) (data : List (List (String × Val)))
    (h : e < s ∨ t < s ∨ t < e) :
    ∃ err, magma_construct vc s e t ev data = Except.error err
      ∧ err.is_invalid_argument = true := by
  cases hv : magma_validate_earthquake_events ev with
  | error err =>
      refine ⟨err, ?_, ?_⟩
      · unfold magma_construct
        rw [hv]
        rfl
      · unfold magma_validate_earthquake_events at hv
        split at hv
        · cases hv
        · cases hv
          rfl
  | ok evs =>
      have hd : ∃ msg, validate_dates s e t
          = Except.error (MagmaError.valueErr msg) := by
        unfold validate_dates
        by_cases h1 : s > e
        · rw [if_pos h1]
          exact ⟨_, rfl⟩
        · rw [if_neg h1]
          have h2 : e > t ∨ s > t := by
            rcases h with h | h | h
            · exact absurd h (by omega)
            · exact Or.inr h
            · exact Or.inl h
          rw [if_pos h2]
          exact ⟨_, rfl⟩
      rcases hd with ⟨msg, hmsg⟩
      refine ⟨MagmaError.valueErr msg, ?_, rfl⟩
      unfold magma_construct
      rw [hv]
      show (validate_dates s e t).bind _ = _
      rw [hmsg]
      rfl

/-- C5 witness: an inverted date range fails construction. -/
theorem c5_date_validation_witness :
    ∃ err, magma_construct "AWU" 5 3 10 none [] = Except.error err
      ∧ err.is_invalid_argument = true :=
  c5_date_validation "AWU" 5 3 10 none [] (by decide)

theorem except_ok_inj {ε α : Type} {a b : α}
    (h : (Except.ok a : Except ε α) = Except.ok b) : a = b := by
  injection h

theorem mem_cols_drop_columns_strict {labels : List String} {df df' : DF}
    (h : drop_columns_strict labels df = Except.ok df') :
    ∀ c ∈ df'.cols, c ∈ df.cols := by
  unfold drop_columns_strict at h
  split at h
  · cases except_ok_inj h
    intro c hc
    exact List.mem_of_mem_filter hc
  · exact Except.noConfusion h

theorem set_index_date_spec {df df' : DF} (h : set_index_date df = Except.ok df') :
    ∃ cd, df.cols.find? (fun c => c.1 == "date") = some cd
      ∧ df'.index = cd.2
      ∧ df'.cols = df.cols.filter (fun c => !(c.1 == "date")) := by
  unfold set_index_date at h
  cases hf : df.cols.find? (fun c => c.1 == "date") with
  | none => rw [hf] at h; exact Except.noConfusion h
  | some cd =>
      rw [hf] at h
      cases except_ok_inj h
      exact ⟨cd, rfl, rfl, rfl⟩

theorem magma_get_df_decomp (data : List (List (String × Val))) (df : DF)
    (h : magma_get_df data = Except.ok df) :
    ∃ df1 df2, drop_columns_strict metadata_columns (json_normalize data) = Except.ok df1
      ∧ set_index_date (drop_zero_sum_columns df1) = Except.ok df2
      ∧ df = rename_columns df2 := by
  unfold magma_get_df at h
  cases h1 : drop_columns_strict metadata_columns (json_normalize data) with
  | error e =>
      rw [h1] at h
      have h' : (Except.error e : Except MagmaError DF) = Except.ok df := h
      exact Except.noConfusion h'
  | ok df1 =>
      rw [h1] at h
      have h' : Except.bind (set_index_date (drop_zero_sum_columns df1))
          (fun x => Except.ok (rename_columns x)) = Except.ok df := h
      cases h2 : set_index_date (drop_zero_sum_columns df1) with
      | error e =>
          rw [h2] at h'
          have h'' : (Except.error e : Except MagmaError DF) = Except.ok df := h'
          exact Except.noConfusion h''
      | ok df2 =>
          rw [h2] at h'
          have h'' : (Except.ok (rename_columns df2) : Except MagmaError DF)
              = Except.ok df := h'
          exact ⟨df1, df2, rfl, h2, (except_ok_inj h'').symm⟩

theorem magma_get_df_cols_nonzero (data : List (List (String × Val))) (df : DF)
    (h : magma_get_df data = Except.ok df) :
    ∀ c ∈ df.cols, sum_vals c.2 ≠ Val.vint 0 := by
  rcases magma_get_df_decomp data df h with ⟨df1, df2, h1, h2, hdf⟩
  rcases set_index_date_spec h2 with ⟨cd, hf, hidx, hcols⟩
  intro c hc hzero
  rw [hdf] at hc
  rcases List.mem_map.mp hc with ⟨c2, hc2, he⟩
  rw [hcols] at hc2
  have hc2' : c2 ∈ (drop_zero_sum_columns df1).cols := List.mem_of_mem_filter hc2
  have hb := List.of_mem_filter hc2'
  have hv : c.2 = c2.2 := by rw [← he]
  rw [← hv, hzero] at hb
  simp at hb

theorem json_normalize_col_length (data : List (List (String × Val))) :
    ∀ c ∈ (json_normalize data).cols, c.2.length = data.length := by
  intro c hc
  rcases List.mem_map.mp hc with ⟨k, _, he⟩
  rw [← he]
  exact List.length_map _ _

theorem magma_construct_eq (vc : String) (s e t : Nat)
    (ev : Option (String ⊕ List String)) (data : List (List (String × Val)))
    (evl : List String) (df : DF)
    (hev : magma_validate_earthquake_events ev = Except.ok evl)
    (hd : validate_dates s e t = Except.ok ())
    (hgd : magma_get_df data = Except.ok df) :
    magma_construct vc s e t ev data =
      if df.index.isEmpty ∨ df.cols.isEmpty then
        Except.error (MagmaError.emptyData ("There is no event(s) between "
          ++ toString s ++ " and " ++ toString e ++ ". Please change your parameters."))
      else Except.ok { df := df,
                       events_not_recorded :=
                         (df.cols.filter (fun c => sum_vals c.2 == Val.vint 0)).map Prod.fst,
                       csv_filename := "magma_" ++ vc ++ "_" ++ toString s
                         ++ "_" ++ toString e ++ ".csv" } := by
  unfold magma_construct
  rw [hev, hd, hgd]
  rfl

/-- A one-record response with every metadata field present, a date, one
nonzero count column and one zero count column. -/
def sample_data : List (List (String × Val)) :=
  [metadata_columns.map (fun m => (m, Val.vnan)) ++
    [("date", Val.vstr "2024-01-01"), ("gempa.guguran", Val.vint 2),
     ("gempa.hembusan", Val.vint 0)]]

/-- A one-record response whose only count column is all-zero. -/
def all_zero_data : List (List (String × Val)) :=
  [metadata_columns.map (fun m => (m, Val.vnan)) ++
    [("date", Val.vstr "2024-01-01"), ("gempa.guguran", Val.vint 0)]]

/-- C6: every column of a successfully normalized Event Table has nonzero
total count; equivalently, a column whose sum over the full range is zero is
absent from the final table (it was dropped before the index and rename
steps, which preserve the surviving columns' values). -/
theorem c6_zero_sum_columns_absent (data : List (List (String × Val))) (df : DF)
    (h : magma_get_df data = Except.ok df) :
    ∀ c ∈ df.cols, sum_vals c.2 ≠ Val.vint 0 :=
  magma_get_df_cols_nonzero data df h

/-- C6 witness: the surviving column of the sample response has nonzero sum
(the all-zero `gempa.hembusan` column is gone). -/
theorem c6_zero_sum_columns_absent_witness :
    sum_vals [Val.vint 2] ≠ Val.vint 0 :=
  c6_zero_sum_columns_absent sample_data
    ⟨[Val.vstr "2024-01-01"], [("Guguran", [Val.vint 2])]⟩ rfl
    ("Guguran", [Val.vint 2]) (by decide)

/-- C7: the claim ties the data-empty failure to a table with zero rows.
Refutation at two concrete inputs.  (1) A response whose single record has
all count columns zero: the normalized table has one row (its index is the
one date) but zero columns, and construction raises the data-empty failure
with its warning — so a table that is non-empty in the claimed sense of
rows still fails and exports no CSV.  (2) A response with zero records: the
normalized table would have zero rows, but construction fails earlier, with
a `KeyError` from dropping the metadata columns of a column-less frame, not
with the data-empty failure, and no warning is printed. -/
theorem c7_empty_result_counterexample :
    magma_get_df all_zero_data = Except.ok ⟨[Val.vstr "2024-01-01"], []⟩
    ∧ magma_construct "X" 0 0 0 none all_zero_data
        = Except.error (MagmaError.emptyData
            "There is no event(s) between 0 and 0. Please change your parameters.")
    ∧ magma_construct "X" 0 0 0 none []
        = Except.error (MagmaError.keyError metadata_columns) :=
  ⟨rfl, rfl, rfl⟩

/-- C7 (amended): the data-empty failure fires exactly when the normalized
Event Table is empty in the pandas sense — zero rows or zero columns.  A
successfully normalized table always has at least one row (a zero-record
response fails during normalization instead), so in practice the failure
fires exactly when no event-count column survived; then the
change-your-query warning is raised with the failure and no CSV is
exported.  When at least one column (and hence one row) remains, the CSV is
exported and no failure is raised. -/
theorem c7_empty_result (vc : String) (s e t : Nat)
    (ev : Option (String ⊕ List String)) (data : List (List (String × Val)))
    (evl : List String) (df : DF)
    (hev : magma_validate_earthquake_events ev = Except.ok evl)
    (hd : validate_dates s e t = Except.ok ())
    (hgd : magma_get_df data = Except.ok df) :
    df.index ≠ []
    ∧ (df.cols = [] → magma_construct vc s e t ev data
        = Except.error (MagmaError.emptyData ("There is no event(s) between "
            ++ toString s ++ " and " ++ toString e ++ ". Please change your parameters.")))
    ∧ (df.cols ≠ [] → magma_construct vc s e t ev data
        = Except.ok { df := df,
                      events_not_recorded :=
                        (df.cols.filter (fun c => sum_vals c.2 == Val.vint 0)).map Prod.fst,
                      csv_filename := "magma_" ++ vc ++ "_" ++ toString s
                        ++ "_" ++ toString e ++ ".csv" }) := by
  have hnil : df.index ≠ [] := by
    rcases magma_get_df_decomp data df hgd with ⟨df1, df2, h1, h2, hdf⟩
    rcases set_index_date_spec h2 with ⟨cd, hf, hidx, hcols⟩
    have hcd1 : cd ∈ (drop_zero_sum_columns df1).cols := List.mem_of_find?_eq_some hf
    have hcd2 : cd ∈ df1.cols := List.mem_of_mem_filter hcd1
    have hcd3 : cd ∈ (json_normalize data).cols := mem_cols_drop_columns_strict h1 cd hcd2
    have hlen : cd.2.length = data.length := json_normalize_col_length data cd hcd3
    have hdata : data ≠ [] := by
      intro hD
      rw [hD] at hgd
      rw [show magma_get_df []
          = Except.error (MagmaError.keyError metadata_columns) from rfl] at hgd
      exact Except.noConfusion hgd
    have hidx' : df.index = cd.2 := by rw [hdf]; exact hidx
    rw [hidx']
    intro hnil
    rw [hnil] at hlen
    exact hdata (List.length_eq_zero.mp hlen.symm)
  refine ⟨hnil, ?_, ?_⟩
  · intro hc0
    rw [magma_construct_eq vc s e t ev data evl df hev hd hgd,
        if_pos (Or.inr (by rw [hc0]; rfl))]
  · intro hcne
    rw [magma_construct_eq vc s e t ev data evl df hev hd hgd, if_neg]
    rintro (hi | hc)
    · exact hnil (List.isEmpty_iff.mp hi)
    · exact hcne (List.isEmpty_iff.mp hc)

/-- C7 witness: the sample response (one surviving column) is exported with
its deterministic CSV name and raises nothing. -/
theorem c7_empty_result_witness :
    magma_construct "X" 0 0 0 none sample_data
      = Except.ok { df := ⟨[Val.vstr "2024-01-01"], [("Guguran", [Val.vint 2])]⟩,
                    events_not_recorded :=
                      ((DF.mk [Val.vstr "2024-01-01"] [("Guguran", [Val.vint 2])]).cols.filter
                        (fun c => sum_vals c.2 == Val.vint 0)).map Prod.fst,
                    csv_filename := "magma_X_0_0.csv" } :=
  (c7_empty_result "X" 0 0 0 none sample_data ["*"]
    ⟨[Val.vstr "2024-01-01"], [("Guguran", [Val.vint 2])]⟩ rfl rfl rfl).2.2 (by decide)

/-- C9: on every successful construction, `events_not_recorded` is the empty
set — it collects the zero-sum columns of the already-normalized table, but
normalization has dropped every zero-sum column beforehand. -/
theorem c9_events_not_recorded_empty (vc : String) (s e t : Nat)
    (ev : Option (String ⊕ List String)) (data : List (List (String × Val)))
    (res : MagmaResult)
    (h : magma_construct vc s e t ev data = Except.ok res) :
    res.events_not_recorded = [] := by
  cases hev : magma_validate_earthquake_events ev with
  | error err =>
      unfold magma_construct at h
      rw [hev] at h
      have h' : (Except.error err : Except MagmaError MagmaResult) = Except.ok res := h
      exact Except.noConfusion h'
  | ok evl =>
      cases hd : validate_dates s e t with
      | error err =>
          unfold magma_construct at h
          rw [hev, hd] at h
          have h' : (Except.error err : Except MagmaError MagmaResult) = Except.ok res := h
          exact Except.noConfusion h'
      | ok u =>
          cases u
          cases hgd : magma_get_df data with
          | error err =>
              unfold magma_construct at h
              rw [hev, hd, hgd] at h
              have h' : (Except.error err : Except MagmaError MagmaResult)
                  = Except.ok res := h
              exact Except.noConfusion h'
          | ok df =>
              rw [magma_construct_eq vc s e t ev data evl df hev hd hgd] at h
              split at h
              · exact Except.noConfusion h
              · cases except_ok_inj h
                show (df.cols.filter (fun c => sum_vals c.2 == Val.vint 0)).map Prod.fst = []
                rw [List.filter_eq_nil_iff.mpr, List.map_nil]
                intro c hc
                have hnz := magma_get_df_cols_nonzero data df hgd c hc
                simp only [beq_iff_eq]
                exact fun hb => hnz hb

/-- One drawn bar panel of the Event Table renderers. -/
structure Panel where
  name : String
  color : String
  values : List Val
deriving DecidableEq, Repr

/-- The per-column drawing loop shared by the event renderers
(`magma.py` lines 175-176 and 235-236, `ssam_ew.py` lines 154-156): each
column looks its colour up in the given catalog — a missing name raises
`KeyError` and aborts the render — and contributes one bar panel. -/
def draw_panels (catalog : List (String × String)) :
    List (String × List Val) → Except MagmaError (List Panel)
  | [] => .ok []
  | c :: rest =>
      match catalog.lookup c.1 with
      | none => .error (.keyError [c.1])
      | some col => do
          let ps ← draw_panels catalog rest
          return ⟨c.1, col, c.2⟩ :: ps

/-- `Magma.plot` (`magma.py` lines 168-205): `plt.subplots` with
`nrows=len(df.columns)` rejects a zero-row grid (`ValueError`) and returns a
scalar Axes when `nrows == 1`, which the loop then fails to index
(`TypeError`) before any panel is drawn; otherwise one bar panel per column
is drawn, coloured through `Magma.colors`. -/
def magma_plot (df : DF) : Except MagmaError (List Panel) :=
  match df.cols with
  | [] => .error (.valueErr "Number of rows must be a positive integer")
  | [_] => .error (.typeErr "Axes object is not subscriptable")
  | cols => draw_panels colors cols

/-- The static `Magma.plot_from_df` (`magma.py` lines 207-265): the same
loop against its own local colour dict. -/
def magma_plot_from_df (df : DF) : Except MagmaError (List Panel) :=
  match df.cols with
  | [] => .error (.valueErr "Number of rows must be a positive integer")
  | [_] => .error (.typeErr "Axes object is not subscriptable")
  | cols => draw_panels plot_from_df_colors cols

theorem draw_panels_error (catalog : List (String × String))
    (cols : List (String × List Val)) (h : ∃ c ∈ cols, catalog.lookup c.1 = none) :
    ∃ name, draw_panels catalog cols = Except.error (MagmaError.keyError [name]) := by
  induction cols with
  | nil => simp at h
  | cons c rest ih =>
      cases hl : catalog.lookup c.1 with
      | none => exact ⟨c.1, by simp [draw_panels, hl]⟩
      | some col =>
          rcases h with ⟨x, hx, hxl⟩
          rcases List.mem_cons.mp hx with hx | hx
          · rw [hx] at hxl
            rw [hl] at hxl
            exact Option.noConfusion hxl
          · rcases ih ⟨x, hx, hxl⟩ with ⟨name, hn⟩
            exact ⟨name, by simp [draw_panels, hl, hn]⟩

theorem draw_panels_ok (catalog : List (String × String))
    (cols : List (String × List Val)) (h : ∀ c ∈ cols, (catalog.lookup c.1).isSome) :
    ∃ ps, draw_panels catalog cols = Except.ok ps
      ∧ ps.map Panel.name = cols.map Prod.fst := by
  induction cols with
  | nil => exact ⟨[], rfl, rfl⟩
  | cons c rest ih =>
      cases hl : catalog.lookup c.1 with
      | none =>
          have hsm := h c (List.mem_cons_self _ _)
          rw [hl] at hsm
          simp at hsm
      | some col =>
          rcases ih (fun x hx => h x (List.mem_cons_of_mem _ hx)) with ⟨ps, hps, hn⟩
          refine ⟨⟨c.1, col, c.2⟩ :: ps, ?_, ?_⟩
          · simp [draw_panels, hl, hps]
          · simp [hn]

/-- C8: the claim says rendering a table containing the renamed columns
`'Tremor-Non Harmonik'` or `'Deep Tremor'` always fails with a
`LookupError` on the colour lookup.  Refutation: on a table whose ONLY
column is `'Deep Tremor'`, the render fails earlier — the single-row
subplot grid yields a scalar Axes object and indexing it raises
`TypeError`, which is not a `LookupError`. -/
theorem c8_color_catalog_mismatch_counterexample :
    magma_plot ⟨[Val.vstr "2024-01-01"], [("Deep Tremor", [Val.vint 1])]⟩
      = Except.error (MagmaError.typeErr "Axes object is not subscriptable")
    ∧ (MagmaError.typeErr "Axes object is not subscriptable").is_lookup_error = false :=
  ⟨rfl, rfl⟩

/-- C8 (amended): the rename catalog produces `'Tremor-Non Harmonik'` (note
the hyphen placement) and `'Deep Tremor'`, neither of which is a key of the
19-entry Color Catalog (which instead holds `'Tremor Non-Harmonik'`); hence
every Event Table WITH AT LEAST TWO COLUMNS containing either of these
names fails the render with a `KeyError` (a `LookupError`) on the colour
lookup — a single-column table fails earlier with a `TypeError` on axes
indexing. -/
theorem c8_color_catalog_mismatch :
    rename_catalog.lookup "gempa.tremor_non_harmonik" = some "Tremor-Non Harmonik"
    ∧ rename_catalog.lookup "gempa.deep_tremor" = some "Deep Tremor"
    ∧ colors.lookup "Tremor-Non Harmonik" = none
    ∧ colors.lookup "Deep Tremor" = none
    ∧ colors.length = 19
    ∧ (colors.lookup "Tremor Non-Harmonik").isSome = true
    ∧ ∀ df : DF, 2 ≤ df.cols.length →
        ("Tremor-Non Harmonik" ∈ df.cols.map Prod.fst
          ∨ "Deep Tremor" ∈ df.cols.map Prod.fst) →
        ∃ name, magma_plot df = Except.error (MagmaError.keyError [name]) := by
  refine ⟨rfl, rfl, rfl, rfl, rfl, rfl, ?_⟩
  intro df h2 hmem
  have hx : ∃ c ∈ df.cols, colors.lookup c.1 = none := by
    rcases hmem with hmem | hmem <;>
    · rcases List.mem_map.mp hmem with ⟨c, hc, he⟩
      exact ⟨c, hc, by rw [he]; rfl⟩
  rcases hcl : df.cols with _ | ⟨c1, _ | ⟨c2, rest⟩⟩
  · rw [hcl] at h2
    exact absurd h2 (by simp)
  · rw [hcl] at h2
    exact absurd h2 (by simp)
  · rw [hcl] at hx
    rcases draw_panels_error colors (c1 :: c2 :: rest) hx with ⟨name, hn⟩
    refine ⟨name, ?_⟩
    unfold magma_plot
    rw [hcl]
    exact hn

/-- C8 witness: a two-column table containing `'Deep Tremor'` fails with a
`KeyError`. -/
theorem c8_color_catalog_mismatch_witness :
    ∃ name, magma_plot ⟨[Val.vstr "2024-01-01"],
        [("Guguran", [Val.vint 1]), ("Deep Tremor", [Val.vint 1])]⟩
      = Except.error (MagmaError.keyError [name]) :=
  c8_color_catalog_mismatch.2.2.2.2.2.2
    ⟨[Val.vstr "2024-01-01"], [("Guguran", [Val.vint 1]), ("Deep Tremor", [Val.vint 1])]⟩
    (by decide) (Or.inr (by decide))

/-- C10: a table with exactly one column makes both event renderers fail
before any panel is drawn — the one-row subplot grid gives a scalar Axes
object that cannot be indexed (`TypeError`) — and, conversely, a render
that returns drawn panels implies the table had at least two columns. -/
theorem c10_single_column_render_fails :
    (∀ df : DF, df.cols.length = 1 →
        magma_plot df = Except.error (MagmaError.typeErr "Axes object is not subscriptable")
        ∧ magma_plot_from_df df
            = Except.error (MagmaError.typeErr "Axes object is not subscriptable"))
    ∧ (∀ (df : DF) (ps : List Panel), magma_plot df = Except.ok ps → 2 ≤ df.cols.length)
    ∧ (∀ (df : DF) (ps : List Panel), magma_plot_from_df df = Except.ok ps →
        2 ≤ df.cols.length) := by
  refine ⟨?_, ?_, ?_⟩
  · intro df h1
    rcases hcl : df.cols with _ | ⟨c1, _ | ⟨c2, rest⟩⟩
    · rw [hcl] at h1; simp at h1
    · constructor
      · unfold magma_plot; rw [hcl]
      · unfold magma_plot_from_df; rw [hcl]
    · rw [hcl] at h1; simp at h1
  · intro df ps h
    rcases hcl : df.cols with _ | ⟨c1, _ | ⟨c2, rest⟩⟩
    · unfold magma_plot at h
      rw [hcl] at h
      exact Except.noConfusion h
    · unfold magma_plot at h
      rw [hcl] at h
      exact Except.noConfusion h
    · simp only [List.length_cons]
      omega
  · intro df ps h
    rcases hcl : df.cols with _ | ⟨c1, _ | ⟨c2, rest⟩⟩
    · unfold magma_plot_from_df at h
      rw [hcl] at h
      exact Except.noConfusion h
    · unfold magma_plot_from_df at h
      rw [hcl] at h
      exact Except.noConfusion h
    · simp only [List.length_cons]
      omega
/-- C10 witness: the single-column failure at a concrete table. -/
theorem c10_single_column_render_fails_witness :
    magma_plot ⟨[Val.vstr "2024-01-01"], [("Guguran", [Val.vint 1])]⟩
      = Except.error (MagmaError.typeErr "Axes object is not subscriptable")
    ∧ magma_plot_from_df ⟨[Val.vstr "2024-01-01"], [("Guguran", [Val.vint 1])]⟩
      = Except.error (MagmaError.typeErr "Axes object is not subscriptable") :=
  c10_single_column_render_fails.1
    ⟨[Val.vstr "2024-01-01"], [("Guguran", [Val.vint 1])]⟩ rfl

/-- The figure structure produced by the combined render: the date range the
internal event fetch was issued with, the bar panels of the upper
subfigure, and the values drawn in the heatmap panel below them. -/
structure CombinedFig where
  fetch_start : Nat
  fetch_end : Nat
  bar_panels : List Panel
  heatmap_values : List SsamRow
deriving DecidableEq, Repr

/-- The upper subfigure of the combined render (`ssam_ew.py` lines 148-162):
`fig_magma.subplots(nrows=len(df.columns))` has the same zero-row rejection
and scalar-Axes indexing failure as `Magma.plot`, and the per-column loop
performs the same colour lookups. -/
def combined_bar_panels (df : DF) : Except MagmaError (List Panel) :=
  match df.cols with
  | [] => .error (.valueErr "Number of rows must be a positive integer")
  | [_] => .error (.typeErr "Axes object is not subscriptable")
  | cols => draw_panels colors cols

/-- `SsamEW.plot_with_magma` (`ssam_ew.py` lines 130-171).  The callee
`magma.Plot` is not among the provided sources; modelled from the spec: the
combined-render mode "fetches its own Event Table internally (meaning it
performs its own network call using the spectral table's already-resolved
date range)", i.e. the callee is the Event Table Builder construction,
embedded here by `magma_construct`, and the module-level `magma.colors` is
the Color Catalog (the same 19-entry mapping `colors`).  The figure stacks
the event bar panels (upper subfigure, one per event column) above the
heatmap panel, which `plot_ax` draws from the raw spectral table (no `df`
argument is passed at line 165). -/
def plot_with_magma (s : SsamState) (volcano_code : String)
    (ev : Option (String ⊕ List String)) (today : Nat)
    (data : List (List (String × Val))) : Except MagmaError CombinedFig := do
  let res ← magma_construct volcano_code s.start_date s.end_date today ev data
  let panels ← combined_bar_panels res.df
  return { fetch_start := s.start_date, fetch_end := s.end_date,
           bar_panels := panels, heatmap_values := plot_ax_values none s.df }

theorem combined_bar_panels_ok (df : DF) (h2 : 2 ≤ df.cols.length)
    (hc : ∀ c ∈ df.cols, (colors.lookup c.1).isSome) :
    ∃ ps, combined_bar_panels df = Except.ok ps
      ∧ ps.map Panel.name = df.cols.map Prod.fst := by
  rcases hcl : df.cols with _ | ⟨c1, _ | ⟨c2, rest⟩⟩
  · rw [hcl] at h2
    exact absurd h2 (by simp)
  · rw [hcl] at h2
    exact absurd h2 (by simp)
  · rw [hcl] at hc
    rcases draw_panels_ok colors (c1 :: c2 :: rest) hc with ⟨ps, hps, hn⟩
    refine ⟨ps, ?_, ?_⟩
    · unfold combined_bar_panels
      rw [hcl]
      exact hps
    · exact hn

theorem ssam_construct_none_spec (files : List (List SsamRow)) (s : SsamState)
    (h : ssam_construct files none none = some s) :
    s.df = ssam_get_df files
    ∧ ∃ r0 rN, (ssam_get_df files).head? = some r0
        ∧ (ssam_get_df files).getLast? = some rN
        ∧ s.start_date = to_day r0.1 ∧ s.end_date = to_day rN.1 := by
  unfold ssam_construct resolve_date at h
  cases hh : (ssam_get_df files).head? with
  | none =>
      rw [hh] at h
      have h' : (none : Option SsamState) = some s := h
      exact Option.noConfusion h'
  | some r0 =>
      rw [hh] at h
      cases hl : (ssam_get_df files).getLast? with
      | none =>
          rw [hl] at h
          have h' : (none : Option SsamState) = some s := h
          exact Option.noConfusion h'
      | some rN =>
          rw [hl] at h
          have h' : some (⟨ssam_get_df files, to_day r0.1, to_day rN.1⟩ : SsamState)
              = some s := h
          cases Option.some.inj h'
          exact ⟨rfl, r0, rN, rfl, rfl, rfl, rfl⟩

/-- C3: the combined render constructs its own Event Table internally — it
invokes the event pipeline (`magma_construct`, with all its validations)
with the spectral table's already-resolved start and end dates (the dates of
the first and last timestamp when none were supplied) — and, when that
fetch succeeds with a colourable multi-column table, produces one bar panel
per event column stacked above the heatmap panel in a single figure. -/
theorem c3_combined_render (files : List (List SsamRow)) (s : SsamState)
    (volcano_code : String) (ev : Option (String ⊕ List String)) (today : Nat)
    (data : List (List (String × Val))) (res : MagmaResult)
    (hs : ssam_construct files none none = some s)
    (hm : magma_construct volcano_code s.start_date s.end_date today ev data
      = Except.ok res)
    (h2 : 2 ≤ res.df.cols.length)
    (hc : ∀ c ∈ res.df.cols, (colors.lookup c.1).isSome) :
    ∃ fig, plot_with_magma s volcano_code ev today data = Except.ok fig
      ∧ fig.fetch_start = s.start_date ∧ fig.fetch_end = s.end_date
      ∧ fig.bar_panels.map Panel.name = res.df.cols.map Prod.fst
      ∧ fig.heatmap_values = s.df
      ∧ (∃ r0, (ssam_get_df files).head? = some r0 ∧ s.start_date = to_day r0.1)
      ∧ (∃ rN, (ssam_get_df files).getLast? = some rN ∧ s.end_date = to_day rN.1) := by
  rcases combined_bar_panels_ok res.df h2 hc with ⟨ps, hps, hn⟩
  have hfig : plot_with_magma s volcano_code ev today data
      = Except.ok { fetch_start := s.start_date, fetch_end := s.end_date,
                    bar_panels := ps, heatmap_values := plot_ax_values none s.df } := by
    unfold plot_with_magma
    rw [hm]
    show Except.bind (combined_bar_panels res.df) _ = _
    rw [hps]
    rfl
  rcases ssam_construct_none_spec files s hs with ⟨hdf, r0, rN, hh, hl, hsd, hed⟩
  exact ⟨_, hfig, rfl, rfl, hn, rfl, ⟨r0, hh, hsd⟩, ⟨rN, hl, hed⟩⟩

/-- A one-record response with two nonzero count columns, both of which have
Color Catalog entries after renaming. -/
def sample2_data : List (List (String × Val)) :=
  [metadata_columns.map (fun m => (m, Val.vnan)) ++
    [("date", Val.vstr "2024-01-01"), ("gempa.guguran", Val.vint 2),
     ("gempa.hembusan", Val.vint 3)]]

/-- C3 witness: the combined render evaluated on a concrete archive (date
range resolved from the data as days 0 and 2) and a concrete two-column
event response. -/
theorem c3_combined_render_witness :
    ∃ fig, plot_with_magma ⟨[(0, [some 1]), (2880, [some 2])], 0, 2⟩ "X" none 5 sample2_data
        = Except.ok fig
      ∧ fig.fetch_start = SsamState.start_date ⟨[(0, [some 1]), (2880, [some 2])], 0, 2⟩
      ∧ fig.fetch_end = SsamState.end_date ⟨[(0, [some 1]), (2880, [some 2])], 0, 2⟩
      ∧ fig.bar_panels.map Panel.name
          = (DF.mk [Val.vstr "2024-01-01"]
              [("Guguran", [Val.vint 2]), ("Hembusan", [Val.vint 3])]).cols.map Prod.fst
      ∧ fig.heatmap_values = SsamState.df ⟨[(0, [some 1]), (2880, [some 2])], 0, 2⟩
      ∧ (∃ r0, (ssam_get_df [[(0, [some 1]), (2880, [some 2])]]).head? = some r0
          ∧ SsamState.start_date ⟨[(0, [some 1]), (2880, [some 2])], 0, 2⟩ = to_day r0.1)
      ∧ (∃ rN, (ssam_get_df [[(0, [some 1]), (2880, [some 2])]]).getLast? = some rN
          ∧ SsamState.end_date ⟨[(0, [some 1]), (2880, [some 2])], 0, 2⟩ = to_day rN.1) :=
  c3_combined_render [[(0, [some 1]), (2880, [some 2])]]
    ⟨[(0, [some 1]), (2880, [some 2])], 0, 2⟩ "X" none 5 sample2_data
    { df := ⟨[Val.vstr "2024-01-01"],
        [("Guguran", [Val.vint 2]), ("Hembusan", [Val.vint 3])]⟩,
      events_not_recorded := [], csv_filename := "magma_X_0_2.csv" }
    rfl rfl (by decide) (by decide)

/-- C9 witness: the successful sample construction records no
"not recorded" events. -/
theorem c9_events_not_recorded_empty_witness :
    MagmaResult.events_not_recorded
      { df := ⟨[Val.vstr "2024-01-01"], [("Guguran", [Val.vint 2])]⟩,
        events_not_recorded := [], csv_filename := "magma_X_0_0.csv" } = [] :=
  c9_events_not_recorded_empty "X" 0 0 0 none sample_data
    { df := ⟨[Val.vstr "2024-01-01"], [("Guguran", [Val.vint 2])]⟩,
      events_not_recorded := [], csv_filename := "magma_X_0_0.csv" } rfl
